import Mathlib

/-!
Shallow embedding of the HedgeDoc server-side realtime collaboration core.

The embedding covers three layers of the source:

* the per-note session layer: RealtimeNote together with WebsocketDoc and
  WebsocketAwareness (realtime-note.ts, websocket-ydoc.ts, websocket-awareness.ts),
  modelling the fan-out of document updates and awareness updates to the
  attached client sockets and the per-connection ownership of awareness ids;
* the gateway layer: RealtimeEditorGateway (realtime-editor.gateway.ts, the
  revision holding a RealtimeNote per note id), modelled as an explicit
  transition system whose events are the points where the asynchronous
  handleConnection can interleave with other connects and disconnects;
* the websocket adapter layer: YjsWebsocketAdapter.bindMessageHandlers
  (yjs-websocket.adapter.ts), modelling the per-frame dispatch by
  varuint message-type tag.

Opaque values of the source (websocket handles, note ids, payload bytes,
awareness client ids) are modelled as natural numbers or lists of natural
numbers; JavaScript Map and Set objects are modelled as association lists
respectively duplicate-free lists, with the key-uniqueness of Map stated as
Nodup hypotheses where a theorem needs it.
-/

namespace HedgedocRealtime

/-- A websocket client handle. In the source this is a WebSocket object;
only its identity matters, so it is modelled as a natural number. -/
abbrev ClientId := Nat

/-- A note identifier. In the source this is the opaque string note.id;
only its identity matters, so it is modelled as a natural number. -/
abbrev NoteId := Nat

/-- MessageType.SYNC = 0, from message-type.ts / yjs-messages.ts. -/
def MessageTypeSYNC : Nat := 0

/-- MessageType.AWARENESS = 1, from message-type.ts / yjs-messages.ts. -/
def MessageTypeAWARENESS : Nat := 1

/-- MessageType.HEDGEDOC = 2, from message-type.ts / yjs-messages.ts. -/
def MessageTypeHEDGEDOC : Nat := 2

/-- An outbound binary frame: the varuint message-type tag followed by the
type-specific payload. For SYNC frames the payload is the update byte string;
for AWARENESS frames the payload is the list of client ids whose awareness
states the encoded update carries (the byte-level encoding done by
encodeAwarenessMessage is abstracted to that id list). -/
structure Frame where
  tag : Nat
  payload : List Nat
  deriving DecidableEq, Repr

/-- One entry of the clients map of RealtimeNote: the websocket key and the
WebsocketConnection record holding the set of awareness client ids this
connection has added or removed (controlledAwarenessIds). The set is
modelled as a list to which elements are added only when absent. -/
structure WebsocketConnection where
  socket : ClientId
  controlledAwarenessIds : List Nat
  deriving DecidableEq, Repr

/-- The per-note session (class RealtimeNote): the clients map (modelled as
the list of its entries), plus the awareness replica state (the set of
client ids currently having an awareness state, as maintained by the
y-protocols Awareness object wrapped by WebsocketAwareness). -/
structure RealtimeNote where
  noteId : NoteId
  clients : List WebsocketConnection
  awarenessStates : List Nat
  deriving DecidableEq, Repr

/-- The keys of the clients map, i.e. the attached websockets. -/
def RealtimeNote.sockets (n : RealtimeNote) : List ClientId :=
  n.clients.map WebsocketConnection.socket

/-- RealtimeNote.getWebsocketsExcept (realtime-note.ts lines 66 to 70):
builds a Set from the keys of the clients map, deletes the given client and
returns the rest. The origin can be null at runtime (server-internal
transaction origins), modelled by the none case, in which the Set.delete
call is a no-op and all attached sockets are returned. -/
def RealtimeNote.getWebsocketsExcept (n : RealtimeNote) (o : Option ClientId) :
    List ClientId :=
  match o with
  | some c => n.sockets.filter (fun s => decide (s ≠ c))
  | none => n.sockets

/-- A SYNC frame carrying an update byte string, as produced by writing the
SYNC tag and the update via writeUpdate (websocket-ydoc.ts). -/
def syncFrame (update : List Nat) : Frame :=
  ⟨MessageTypeSYNC, update⟩

/-- An AWARENESS frame carrying the awareness update for the given client
ids, as produced by encodeAwarenessMessage (websocket-awareness.ts). -/
def awarenessFrame (ids : List Nat) : Frame :=
  ⟨MessageTypeAWARENESS, ids⟩

/-- WebsocketDoc.processYDocUpdate: the handler of the yjs document update
event. It encodes a SYNC frame carrying the update and sends it to every
attached websocket except the transaction origin. Returns the list of
(recipient, frame) send operations. -/
def RealtimeNote.processYDocUpdate (n : RealtimeNote) (update : List Nat)
    (o : Option ClientId) : List (ClientId × Frame) :=
  (n.getWebsocketsExcept o).map (fun s => (s, syncFrame update))

/-- The added, updated and removed client id lists carried by an awareness
change event (interface ClientIdUpdate in websocket-awareness.ts). -/
structure ClientIdUpdate where
  added : List Nat
  updated : List Nat
  removed : List Nat
  deriving DecidableEq, Repr

/-- JavaScript Set.add on a set modelled as a duplicate-free list. -/
def setAdd (l : List Nat) (x : Nat) : List Nat :=
  if x ∈ l then l else l ++ [x]

/-- Adding every element of a list to a set, as the forEach loops over
added and removed do in handleAwarenessUpdate. -/
def setAddAll (l : List Nat) (xs : List Nat) : List Nat :=
  xs.foldl setAdd l

/-- The ownership-recording step of handleAwarenessUpdate (websocket-awareness.ts
lines 31 to 35): every id of the given list is added to the
controlledAwarenessIds set of the connection whose socket is the origin. -/
def RealtimeNote.recordControlled (n : RealtimeNote) (c : ClientId)
    (ids : List Nat) : RealtimeNote :=
  { n with clients := n.clients.map (fun conn =>
      if conn.socket = c then
        { conn with controlledAwarenessIds :=
            setAddAll conn.controlledAwarenessIds ids }
      else conn) }

/-- WebsocketAwareness.handleAwarenessUpdate: the handler of the awareness
update event. If the origin is a real connection, the added and removed ids
(not the updated ones) are recorded into its controlledAwarenessIds; then an
AWARENESS frame carrying added, updated and removed is sent to every
connection returned by getConnections, i.e. to all attached clients
including the origin. Returns the new session state and the send list. -/
def RealtimeNote.handleAwarenessUpdate (n : RealtimeNote) (u : ClientIdUpdate)
    (o : Option ClientId) : RealtimeNote × List (ClientId × Frame) :=
  let n' := match o with
    | some c => n.recordControlled c (u.added ++ u.removed)
    | none => n
  let binaryUpdate := awarenessFrame (u.added ++ u.updated ++ u.removed)
  (n', n'.clients.map (fun conn => (conn.socket, binaryUpdate)))

/-- The controlledAwarenessIds of the connection whose socket is the given
client, or the empty list when no such connection is attached. -/
def RealtimeNote.controlledIdsOf (n : RealtimeNote) (c : ClientId) : List Nat :=
  ((n.clients.find? (fun conn => decide (conn.socket = c))).map
    WebsocketConnection.controlledAwarenessIds).getD []

/-- Modelled from the spec: the y-protocols removeAwarenessStates call used
by WebsocketAwareness.removeClient (the library itself is out of scope).
Per the spec, removeStates locally expires the given client ids, and when at
least one id was actually present it produces a change event with origin nil
whose removed list holds the expired ids, which is then broadcast to all
remaining peers by the handleAwarenessUpdate handler. -/
def RealtimeNote.removeAwarenessStates (n : RealtimeNote) (ids : List Nat) :
    RealtimeNote × List (ClientId × Frame) :=
  let present := n.awarenessStates.filter (fun x => decide (x ∈ ids))
  let n' := { n with
    awarenessStates := n.awarenessStates.filter (fun x => decide (x ∉ ids)) }
  if present.isEmpty then (n', [])
  else n'.handleAwarenessUpdate ⟨[], [], present⟩ none

/-- WebsocketAwareness.removeClient (websocket-awareness.ts lines 53 to 59):
expires exactly the controlledAwarenessIds of the given connection, with
origin null. -/
def RealtimeNote.awarenessRemoveClient (n : RealtimeNote)
    (conn : WebsocketConnection) : RealtimeNote × List (ClientId × Frame) :=
  n.removeAwarenessStates conn.controlledAwarenessIds

/-- The observable effects of detaching one connection from a session. -/
structure DetachResult where
  note : RealtimeNote
  sends : List (ClientId × Frame)
  removeStatesArg : List Nat
  onEmptyInvoked : Bool
  docDestroyed : Bool
  deriving DecidableEq, Repr

/-- Modelled from the spec: the detach glue of websocket-connection.ts,
which is absent from src. Per the spec, detach removes the connection from
the clients map (RealtimeNote.removeClient in the source), calls
awareness.removeStates with exactly the ownedAwarenessIds of the connection
(WebsocketAwareness.removeClient in the source), and when the clients map
became empty invokes the registered on-empty callback and destroys the
document (the conditional branch of RealtimeNote.removeClient in the older
revision). removeStatesArg records the argument passed to removeStates. -/
def RealtimeNote.detach (n : RealtimeNote) (c : ClientId) : DetachResult :=
  match n.clients.find? (fun conn => decide (conn.socket = c)) with
  | none => ⟨n, [], [], false, false⟩
  | some conn =>
    let n1 := { n with
      clients := n.clients.filter (fun k => decide (k.socket ≠ c)) }
    let r := n1.awarenessRemoveClient conn
    if r.1.clients.isEmpty then
      ⟨r.1, r.2, conn.controlledAwarenessIds, true, true⟩
    else
      ⟨r.1, r.2, conn.controlledAwarenessIds, false, false⟩

/-- JavaScript Map.get on a map modelled as an association list. -/
def mapGet {α β : Type} [DecidableEq α] (m : List (α × β)) (k : α) : Option β :=
  (m.find? (fun p => decide (p.1 = k))).map Prod.snd

/-- JavaScript Map.set: replace the value when the key is present, append a
new entry otherwise. -/
def mapSet {α β : Type} [DecidableEq α] (m : List (α × β)) (k : α) (v : β) :
    List (α × β) :=
  if (m.find? (fun p => decide (p.1 = k))).isSome then
    m.map (fun p => if p.1 = k then (k, v) else p)
  else m ++ [(k, v)]

/-- JavaScript Map.delete. -/
def mapDel {α β : Type} [DecidableEq α] (m : List (α × β)) (k : α) :
    List (α × β) :=
  m.filter (fun p => decide (p.1 ≠ k))

/-- A RealtimeNote as the gateway observes it: its note id, the keys of its
clients map, and the number of times websocketDoc.destroy has run on it. -/
structure GSession where
  sessionNoteId : NoteId
  sessionClients : List ClientId
  destroyCount : Nat
  deriving DecidableEq, Repr

/-- The state of RealtimeEditorGateway (realtime-editor.gateway.ts, the
revision with connectionToRealtimeNote and noteIdToRealtimeNote):

* connectionToRealtimeNote and noteIdToRealtimeNote map to session indices
  into the sessions arena, which keeps every RealtimeNote object ever
  created so that sessions dropped from the registry stay observable;
* pendingFetch holds the connections suspended inside the awaited
  noteService.getNoteContent call of getOrCreateRealtimeNote;
* fetchLog records one entry per getNoteContent invocation. -/
structure GatewayState where
  connectionToRealtimeNote : List (ClientId × Nat)
  noteIdToRealtimeNote : List (NoteId × Nat)
  sessions : List (Nat × GSession)
  pendingFetch : List (ClientId × NoteId)
  fetchLog : List NoteId
  nextSession : Nat
  deriving DecidableEq, Repr

/-- The gateway state before any connection. -/
def initGateway : GatewayState := ⟨[], [], [], [], [], 0⟩

/-- RealtimeNote.connectClient as the gateway model sees it: Map.set of the
client into the clients map of the session (a fresh WebsocketConnection
value is created, so the key set gains the client when absent). -/
def connectClientG (st : GatewayState) (sid : Nat) (c : ClientId) :
    GatewayState :=
  match mapGet st.sessions sid with
  | none => st
  | some s =>
    let s1 := { s with sessionClients :=
      if c ∈ s.sessionClients then s.sessionClients
      else s.sessionClients ++ [c] }
    { st with sessions := mapSet st.sessions sid s1 }

/-- The tail of handleConnection after getOrCreateRealtimeNote resolved
(realtime-editor.gateway.ts lines 138 to 151): connectionToRealtimeNote is
set first; then, only when the socket is still open, connectClient runs;
when the socket already closed the handler merely closes it again and
returns, leaving both registry entries in place. -/
def finishConnect (st : GatewayState) (c : ClientId) (sid : Nat)
    (isOpen : Bool) : GatewayState :=
  let st1 := { st with
    connectionToRealtimeNote := mapSet st.connectionToRealtimeNote c sid }
  if isOpen then connectClientG st1 sid c else st1

/-- The interleaving points of the gateway: a connection reaching the
getOrCreateRealtimeNote call (connectEvt, with the openness the socket will
have if the call resolves without suspending), the resolution of a suspended
getNoteContent fetch (resumeEvt, with the openness of the socket at that
moment), and a socket close handled by handleDisconnect (disconnectEvt). -/
inductive GEvent where
  | connectEvt (c : ClientId) (n : NoteId) (isOpen : Bool)
  | resumeEvt (c : ClientId) (isOpen : Bool)
  | disconnectEvt (c : ClientId)
  deriving DecidableEq, Repr

/-- One gateway transition.

connectEvt: getOrCreateRealtimeNote (lines 167 to 177) looks the note id up
in noteIdToRealtimeNote; on a hit the handler continues synchronously with
the found session; on a miss it invokes getNoteContent (logged in fetchLog)
and suspends in pendingFetch without having inserted anything.

resumeEvt: the suspended fetch resolves; a fresh RealtimeNote is created and
unconditionally inserted into noteIdToRealtimeNote (overwriting whatever a
concurrent creator inserted meanwhile), then the handler tail runs.

disconnectEvt: handleDisconnect (lines 53 to 63) looks the client up in
connectionToRealtimeNote; when absent it only logs. Otherwise
RealtimeNote.removeClient (realtime-note.ts of the older revision, lines 150
to 159) deletes the client from the clients map and, only when the map
became empty, destroys the yDoc and runs the onDestroy callback, which
deletes the connectionToRealtimeNote entry of this client and the
noteIdToRealtimeNote entry of the note id of this session. -/
def gatewayStep (st : GatewayState) (e : GEvent) : GatewayState :=
  match e with
  | .connectEvt c n isOpen =>
    match mapGet st.noteIdToRealtimeNote n with
    | some sid => finishConnect st c sid isOpen
    | none => { st with
        pendingFetch := st.pendingFetch ++ [(c, n)],
        fetchLog := st.fetchLog ++ [n] }
  | .resumeEvt c isOpen =>
    match mapGet st.pendingFetch c with
    | none => st
    | some n =>
      let sid := st.nextSession
      let st1 := { st with
        pendingFetch := mapDel st.pendingFetch c,
        sessions := st.sessions ++ [(sid, ⟨n, [], 0⟩)],
        noteIdToRealtimeNote := mapSet st.noteIdToRealtimeNote n sid,
        nextSession := sid + 1 }
      finishConnect st1 c sid isOpen
  | .disconnectEvt c =>
    match mapGet st.connectionToRealtimeNote c with
    | none => st
    | some sid =>
      match mapGet st.sessions sid with
      | none => st
      | some s =>
        let s1 := { s with
          sessionClients := s.sessionClients.filter (fun x => decide (x ≠ c)) }
        if s1.sessionClients.isEmpty then
          let s2 := { s1 with destroyCount := s1.destroyCount + 1 }
          { st with
            sessions := mapSet st.sessions sid s2,
            connectionToRealtimeNote := mapDel st.connectionToRealtimeNote c,
            noteIdToRealtimeNote :=
              mapDel st.noteIdToRealtimeNote s1.sessionNoteId }
        else { st with sessions := mapSet st.sessions sid s1 }

/-- Running a schedule of gateway events from the initial state. -/
def runGateway (evs : List GEvent) : GatewayState :=
  evs.foldl gatewayStep initGateway

/-- The lib0 variable-length unsigned integer decoder: seven value bits per
byte, least significant group first, high bit as continuation flag. Returns
none when the input ends inside a number (in the source this makes the
decoder read past the end and fail). -/
def readVarUintAux : List Nat → Nat → Nat → Option (Nat × List Nat)
  | [], _, _ => none
  | b :: rest, shift, acc =>
    if b < 128 then some (acc + b * 2 ^ shift, rest)
    else readVarUintAux rest (shift + 7) (acc + (b % 128) * 2 ^ shift)

/-- decoding.readVarUint applied at the start of a frame. -/
def readVarUint (data : List Nat) : Option (Nat × List Nat) :=
  readVarUintAux data 0 0

/-- What a registered message handler callback does when invoked, as far as
the dispatcher can observe: return normally or throw. -/
inductive HandlerBehavior where
  | ok
  | throws
  deriving DecidableEq, Repr

/-- One MessageMappingProperties entry: the message-type code it is
registered for and the behavior of its callback. -/
structure MessageHandlerEntry where
  message : Nat
  callback : HandlerBehavior
  deriving DecidableEq, Repr

/-- The externally visible actions of one message dispatch. -/
inductive DispatchAction where
  | logMissingHandler
  | logHandlerErrorWithStack
  | closeConnection
  | handled (tag : Nat)
  deriving DecidableEq, Repr

/-- YjsWebsocketAdapter.bindMessageHandlers (yjs-websocket.adapter.ts lines
28 to 51), the per-message listener: decode the varuint message type; when no
handler matches, log an error and return; otherwise invoke the callback
inside try, and on a thrown error log it together with its stack. The result
is none when the varuint decoder itself fails (that happens outside the try
block, so the exception escapes the listener); otherwise it is the list of
actions the listener performed. -/
def bindMessageHandlersStep (handlers : List MessageHandlerEntry)
    (data : List Nat) : Option (List DispatchAction) :=
  (readVarUint data).map (fun tr =>
    match handlers.find? (fun h => decide (h.message = tr.1)) with
    | none => [DispatchAction.logMissingHandler]
    | some h =>
      match h.callback with
      | .ok => [DispatchAction.handled tr.1]
      | .throws => [DispatchAction.logHandlerErrorWithStack])

/-! Helper lemmas about the set and map models. -/

theorem mem_setAdd (l : List Nat) (x y : Nat) :
    y ∈ setAdd l x ↔ y ∈ l ∨ y = x := by
  unfold setAdd
  by_cases h : x ∈ l
  · simp only [if_pos h]
    constructor
    · exact Or.inl
    · rintro (hy | rfl)
      · exact hy
      · exact h
  · simp [if_neg h]

theorem mem_setAddAll (xs l : List Nat) (y : Nat) :
    y ∈ setAddAll l xs ↔ y ∈ l ∨ y ∈ xs := by
  induction xs generalizing l with
  | nil => simp [setAddAll]
  | cons x t ih =>
    have h1 : setAddAll l (x :: t) = setAddAll (setAdd l x) t := rfl
    rw [h1, ih, mem_setAdd]
    simp only [List.mem_cons]
    tauto

theorem sockets_recordControlled (n : RealtimeNote) (c : ClientId)
    (ids : List Nat) : (n.recordControlled c ids).sockets = n.sockets := by
  unfold RealtimeNote.recordControlled RealtimeNote.sockets
  simp only [List.map_map]
  apply List.map_congr_left
  intro conn _
  by_cases h : conn.socket = c <;> simp [h, Function.comp]

theorem map_socket_filter (clients : List WebsocketConnection) (c : ClientId) :
    (clients.filter (fun k => decide (k.socket ≠ c))).map
      WebsocketConnection.socket
    = (clients.map WebsocketConnection.socket).filter
      (fun s => decide (s ≠ c)) := by
  induction clients with
  | nil => rfl
  | cons a t ih =>
    by_cases h : a.socket = c
    · simpa [List.filter_cons, h] using ih
    · simpa [List.filter_cons, h] using ih

theorem length_filter_ne (l : List ClientId) (c : ClientId) (hn : l.Nodup)
    (hc : c ∈ l) :
    (l.filter (fun s => decide (s ≠ c))).length + 1 = l.length := by
  induction l with
  | nil => cases hc
  | cons a t ih =>
    rcases List.nodup_cons.mp hn with ⟨ha, ht⟩
    by_cases h : a = c
    · subst h
      have heq : t.filter (fun s => decide (s ≠ a)) = t := by
        apply List.filter_eq_self.mpr
        intro x hx
        simp only [ne_eq, decide_eq_true_eq]
        exact fun e => ha (e ▸ hx)
      have h1 : ((a :: t).filter (fun s => decide (s ≠ a)))
          = t.filter (fun s => decide (s ≠ a)) := by
        apply List.filter_cons_of_neg
        simp
      rw [h1, heq, List.length_cons]
    · have hct : c ∈ t := by
        rcases List.mem_cons.mp hc with h2 | h2
        · exact absurd h2.symm h
        · exact h2
      have ihh := ih ht hct
      simpa [List.filter_cons, h] using ihh

theorem find_map_record_self (clients : List WebsocketConnection)
    (c : ClientId) (ids : List Nat) :
    (clients.map (fun conn =>
      if conn.socket = c then
        { conn with controlledAwarenessIds :=
            setAddAll conn.controlledAwarenessIds ids }
      else conn)).find? (fun conn => decide (conn.socket = c))
    = (clients.find? (fun conn => decide (conn.socket = c))).map
        (fun conn =>
          { conn with controlledAwarenessIds :=
              setAddAll conn.controlledAwarenessIds ids }) := by
  induction clients with
  | nil => rfl
  | cons a t ih =>
    by_cases h : a.socket = c
    · simp [List.find?_cons, h]
    · simp [List.find?_cons, h, ih]

theorem find_map_record_other (clients : List WebsocketConnection)
    (c d : ClientId) (ids : List Nat) (hdc : d ≠ c) :
    (clients.map (fun conn =>
      if conn.socket = c then
        { conn with controlledAwarenessIds :=
            setAddAll conn.controlledAwarenessIds ids }
      else conn)).find? (fun conn => decide (conn.socket = d))
    = clients.find? (fun conn => decide (conn.socket = d)) := by
  induction clients with
  | nil => rfl
  | cons a t ih =>
    by_cases h : a.socket = c
    · have hcd : c ≠ d := fun e => hdc e.symm
      simp [List.find?_cons, h, hcd, ih]
    · by_cases h2 : a.socket = d
      · simp [List.find?_cons, h, h2, hdc]
      · simp [List.find?_cons, h, h2, ih]

theorem controlledIdsOf_record_other (n : RealtimeNote) (c d : ClientId)
    (ids : List Nat) (hdc : d ≠ c) :
    (n.recordControlled c ids).controlledIdsOf d = n.controlledIdsOf d := by
  unfold RealtimeNote.controlledIdsOf RealtimeNote.recordControlled
  rw [find_map_record_other n.clients c d ids hdc]

theorem processYDocUpdate_fst (n : RealtimeNote) (u : List Nat)
    (c : ClientId) :
    (n.processYDocUpdate u (some c)).map Prod.fst
      = n.sockets.filter (fun s => decide (s ≠ c)) := by
  unfold RealtimeNote.processYDocUpdate RealtimeNote.getWebsocketsExcept
  rw [List.map_map]
  have h2 : (Prod.fst ∘ fun s : ClientId => (s, syncFrame u)) = id := rfl
  rw [h2, List.map_id]

/-- Claim C3: when an inbound SYNC frame from connection c produces a
non-empty document update, the resulting update event (handled by
processYDocUpdate with transaction origin c, as the decodeSyncMessage call
of the source threads the submitting connection through as origin) sends
exactly one outbound SYNC frame carrying that update to each attached
connection other than c, and sends nothing to c: the recipient list is
duplicate-free, a socket is a recipient exactly when it is attached and
differs from c, every sent frame is the SYNC frame of the update, and there
are exactly K - 1 sends for K attached connections. -/
theorem claim3_doc_update_broadcast (n : RealtimeNote) (c : ClientId)
    (u : List Nat) (hnd : n.sockets.Nodup) (hc : c ∈ n.sockets)
    (hu : u ≠ []) :
    ((n.processYDocUpdate u (some c)).map Prod.fst).Nodup ∧
    (∀ d : ClientId, d ∈ (n.processYDocUpdate u (some c)).map Prod.fst ↔
      (d ∈ n.sockets ∧ d ≠ c)) ∧
    (∀ p ∈ n.processYDocUpdate u (some c), p.2 = syncFrame u) ∧
    (n.processYDocUpdate u (some c)).length + 1 = n.sockets.length := by
  have _ := hu
  refine ⟨?_, ?_, ?_, ?_⟩
  · rw [processYDocUpdate_fst]
    exact hnd.filter _
  · intro d
    rw [processYDocUpdate_fst]
    simp [List.mem_filter]
  · intro p hp
    unfold RealtimeNote.processYDocUpdate at hp
    rcases List.mem_map.mp hp with ⟨s, _, rfl⟩
    rfl
  · have hlen : (n.processYDocUpdate u (some c)).length
        = ((n.processYDocUpdate u (some c)).map Prod.fst).length := by
      rw [List.length_map]
    rw [hlen, processYDocUpdate_fst]
    exact length_filter_ne n.sockets c hnd hc

/-- Claim C3 witness: in a session with three attached sockets, socket 1
sending an update produces two sends, so the K - 1 count holds at a
concrete input. -/
theorem claim3_doc_update_broadcast_witness :
    (RealtimeNote.mk 7 [⟨1, []⟩, ⟨2, []⟩, ⟨3, []⟩] []).sockets.Nodup ∧
    (1 : ClientId) ∈ (RealtimeNote.mk 7 [⟨1, []⟩, ⟨2, []⟩, ⟨3, []⟩] []).sockets ∧
    ([5] : List Nat) ≠ [] ∧
    ((RealtimeNote.mk 7 [⟨1, []⟩, ⟨2, []⟩, ⟨3, []⟩] []).processYDocUpdate
        [5] (some 1)).length + 1
      = (RealtimeNote.mk 7 [⟨1, []⟩, ⟨2, []⟩, ⟨3, []⟩] []).sockets.length :=
  ⟨by decide, by decide, by decide,
    (claim3_doc_update_broadcast (RealtimeNote.mk 7 [⟨1, []⟩, ⟨2, []⟩, ⟨3, []⟩] [])
      1 [5] (by decide) (by decide) (by decide)).2.2.2⟩

/-- Claim C10: getWebsocketsExcept returns exactly the attached sockets
minus the given client, without duplicates; for an unattached client and for
the nil origin it returns all attached sockets; consequently a document
update with nil origin is broadcast to every attached connection. -/
theorem claim10_get_websockets_except (n : RealtimeNote) (c : ClientId)
    (u : List Nat) (hnd : n.sockets.Nodup) :
    (n.getWebsocketsExcept (some c)).Nodup ∧
    (∀ d : ClientId, d ∈ n.getWebsocketsExcept (some c) ↔
      (d ∈ n.sockets ∧ d ≠ c)) ∧
    (c ∉ n.sockets → n.getWebsocketsExcept (some c) = n.sockets) ∧
    n.getWebsocketsExcept none = n.sockets ∧
    (n.processYDocUpdate u none).map Prod.fst = n.sockets ∧
    (∀ p ∈ n.processYDocUpdate u none, p.2 = syncFrame u) := by
  refine ⟨?_, ?_, ?_, ?_, ?_, ?_⟩
  · exact hnd.filter _
  · intro d
    unfold RealtimeNote.getWebsocketsExcept
    simp [List.mem_filter]
  · intro hcn
    unfold RealtimeNote.getWebsocketsExcept
    apply List.filter_eq_self.mpr
    intro x hx
    simp only [ne_eq, decide_eq_true_eq]
    exact fun e => hcn (e ▸ hx)
  · rfl
  · unfold RealtimeNote.processYDocUpdate RealtimeNote.getWebsocketsExcept
    rw [List.map_map]
    have h2 : (Prod.fst ∘ fun s : ClientId => (s, syncFrame u)) = id := rfl
    rw [h2, List.map_id]
  · intro p hp
    unfold RealtimeNote.processYDocUpdate at hp
    rcases List.mem_map.mp hp with ⟨s, _, rfl⟩
    rfl

/-- Claim C10 witness: with sockets 1 and 2 attached, excluding the
unattached socket 9 returns both sockets. -/
theorem claim10_get_websockets_except_witness :
    (RealtimeNote.mk 7 [⟨1, []⟩, ⟨2, []⟩] []).sockets.Nodup ∧
    ((9 : ClientId) ∉ (RealtimeNote.mk 7 [⟨1, []⟩, ⟨2, []⟩] []).sockets →
      (RealtimeNote.mk 7 [⟨1, []⟩, ⟨2, []⟩] []).getWebsocketsExcept (some 9)
        = (RealtimeNote.mk 7 [⟨1, []⟩, ⟨2, []⟩] []).sockets) :=
  ⟨by decide,
    (claim10_get_websockets_except (RealtimeNote.mk 7 [⟨1, []⟩, ⟨2, []⟩] [])
      9 [5] (by decide)).2.2.1⟩

/-- Claim C4: an awareness change event with origin c (as triggered by an
inbound AWARENESS frame from connection c) produces exactly one outbound
AWARENESS frame, carrying all ids reported as added, updated and removed,
sent to every attached connection including c: the recipient list equals the
attached socket list (hence is duplicate-free and contains c), every sent
frame is the AWARENESS frame of added, updated and removed, and there are
exactly K sends for K attached connections. -/
theorem claim4_awareness_echo (n : RealtimeNote) (u : ClientIdUpdate)
    (c : ClientId) (hnd : n.sockets.Nodup) (hc : c ∈ n.sockets) :
    ((n.handleAwarenessUpdate u (some c)).2).map Prod.fst = n.sockets ∧
    (((n.handleAwarenessUpdate u (some c)).2).map Prod.fst).Nodup ∧
    c ∈ ((n.handleAwarenessUpdate u (some c)).2).map Prod.fst ∧
    (∀ p ∈ (n.handleAwarenessUpdate u (some c)).2,
      p.2 = awarenessFrame (u.added ++ u.updated ++ u.removed)) ∧
    ((n.handleAwarenessUpdate u (some c)).2).length = n.sockets.length := by
  have hbody : (n.handleAwarenessUpdate u (some c)).2
      = (n.recordControlled c (u.added ++ u.removed)).clients.map
          (fun k => (k.socket,
            awarenessFrame (u.added ++ u.updated ++ u.removed))) := rfl
  have hfst : ((n.handleAwarenessUpdate u (some c)).2).map Prod.fst
      = n.sockets := by
    rw [hbody, List.map_map]
    have h2 : (Prod.fst ∘ fun k : WebsocketConnection => (k.socket,
        awarenessFrame (u.added ++ u.updated ++ u.removed)))
        = WebsocketConnection.socket := rfl
    rw [h2]
    exact sockets_recordControlled n c (u.added ++ u.removed)
  refine ⟨hfst, ?_, ?_, ?_, ?_⟩
  · rw [hfst]
    exact hnd
  · rw [hfst]
    exact hc
  · intro p hp
    rw [hbody] at hp
    rcases List.mem_map.mp hp with ⟨k, _, rfl⟩
    rfl
  · have hlen : ((n.handleAwarenessUpdate u (some c)).2).length
        = (((n.handleAwarenessUpdate u (some c)).2).map Prod.fst).length := by
      rw [List.length_map]
    rw [hlen, hfst]

/-- Claim C4 witness: with sockets 1 and 2 attached and an event from
socket 1, the recipient list is exactly the attached socket list and the
number of sends equals the number of connections. -/
theorem claim4_awareness_echo_witness :
    (RealtimeNote.mk 7 [⟨1, []⟩, ⟨2, []⟩] []).sockets.Nodup ∧
    (1 : ClientId) ∈ (RealtimeNote.mk 7 [⟨1, []⟩, ⟨2, []⟩] []).sockets ∧
    ((RealtimeNote.mk 7 [⟨1, []⟩, ⟨2, []⟩] []).handleAwarenessUpdate
        ⟨[4], [5], [6]⟩ (some 1)).2.map Prod.fst
      = (RealtimeNote.mk 7 [⟨1, []⟩, ⟨2, []⟩] []).sockets :=
  ⟨by decide, by decide,
    (claim4_awareness_echo (RealtimeNote.mk 7 [⟨1, []⟩, ⟨2, []⟩] [])
      ⟨[4], [5], [6]⟩ 1 (by decide) (by decide)).1⟩

/-- Claim C6: for an awareness change event with a non-nil origin c, the
resulting controlledAwarenessIds set of the origin connection contains an id
exactly when it was already owned or is listed in added or removed; ids
appearing only in updated are not inserted; the sets of all other
connections are unchanged; and an event with nil origin leaves the whole
session state unchanged. -/
theorem claim6_ownership_recording (n : RealtimeNote) (u : ClientIdUpdate)
    (c : ClientId) (hc : c ∈ n.sockets) :
    (∀ x : Nat, x ∈ ((n.handleAwarenessUpdate u (some c)).1).controlledIdsOf c
      ↔ (x ∈ n.controlledIdsOf c ∨ x ∈ u.added ∨ x ∈ u.removed)) ∧
    (∀ d : ClientId, d ≠ c →
      ((n.handleAwarenessUpdate u (some c)).1).controlledIdsOf d
        = n.controlledIdsOf d) ∧
    (n.handleAwarenessUpdate u none).1 = n := by
  have h1 : (n.handleAwarenessUpdate u (some c)).1
      = n.recordControlled c (u.added ++ u.removed) := rfl
  cases hfd : n.clients.find? (fun k => decide (k.socket = c)) with
  | none =>
    exfalso
    rcases List.mem_map.mp hc with ⟨conn, hconn, hcs⟩
    have hall := List.find?_eq_none.mp hfd conn hconn
    simp [hcs] at hall
  | some conn =>
    have h2 : (n.recordControlled c (u.added ++ u.removed)).controlledIdsOf c
        = setAddAll conn.controlledAwarenessIds (u.added ++ u.removed) := by
      unfold RealtimeNote.controlledIdsOf RealtimeNote.recordControlled
      rw [find_map_record_self, hfd]
      rfl
    have h3 : n.controlledIdsOf c = conn.controlledAwarenessIds := by
      unfold RealtimeNote.controlledIdsOf
      rw [hfd]
      rfl
    refine ⟨?_, ?_, rfl⟩
    · intro x
      rw [h1, h2, h3, mem_setAddAll]
      simp [List.mem_append]
    · intro d hd
      rw [h1]
      exact controlledIdsOf_record_other n c d (u.added ++ u.removed) hd

/-- Claim C6 witness: socket 1 owning id 9 sees an event adding 4, updating
5 and removing 6; id 4 becomes owned while the only-updated id 5 does not. -/
theorem claim6_ownership_recording_witness :
    (1 : ClientId) ∈ (RealtimeNote.mk 7 [⟨1, [9]⟩, ⟨2, []⟩] []).sockets ∧
    ((4 : Nat) ∈ (((RealtimeNote.mk 7 [⟨1, [9]⟩, ⟨2, []⟩] []).handleAwarenessUpdate
        ⟨[4], [5], [6]⟩ (some 1)).1).controlledIdsOf 1
      ↔ ((4 : Nat) ∈ (RealtimeNote.mk 7 [⟨1, [9]⟩, ⟨2, []⟩] []).controlledIdsOf 1
          ∨ (4 : Nat) ∈ ([4] : List Nat) ∨ (4 : Nat) ∈ ([6] : List Nat))) :=
  ⟨by decide,
    (claim6_ownership_recording (RealtimeNote.mk 7 [⟨1, [9]⟩, ⟨2, []⟩] [])
      ⟨[4], [5], [6]⟩ 1 (by decide)).1 4⟩

theorem detach_eq (n : RealtimeNote) (conn : WebsocketConnection)
    (hfind : n.clients.find? (fun k => decide (k.socket = conn.socket))
      = some conn)
    (hpe : (n.awarenessStates.filter
      (fun x => decide (x ∈ conn.controlledAwarenessIds))).isEmpty = false) :
    n.detach conn.socket =
      (if (n.clients.filter
          (fun k => decide (k.socket ≠ conn.socket))).isEmpty then
        DetachResult.mk
          ⟨n.noteId,
           n.clients.filter (fun k => decide (k.socket ≠ conn.socket)),
           n.awarenessStates.filter
             (fun x => decide (x ∉ conn.controlledAwarenessIds))⟩
          ((n.clients.filter (fun k => decide (k.socket ≠ conn.socket))).map
            (fun k => (k.socket, awarenessFrame (n.awarenessStates.filter
              (fun x => decide (x ∈ conn.controlledAwarenessIds))))))
          conn.controlledAwarenessIds true true
      else
        DetachResult.mk
          ⟨n.noteId,
           n.clients.filter (fun k => decide (k.socket ≠ conn.socket)),
           n.awarenessStates.filter
             (fun x => decide (x ∉ conn.controlledAwarenessIds))⟩
          ((n.clients.filter (fun k => decide (k.socket ≠ conn.socket))).map
            (fun k => (k.socket, awarenessFrame (n.awarenessStates.filter
              (fun x => decide (x ∈ conn.controlledAwarenessIds))))))
          conn.controlledAwarenessIds false false) := by
  unfold RealtimeNote.detach RealtimeNote.awarenessRemoveClient
    RealtimeNote.removeAwarenessStates RealtimeNote.handleAwarenessUpdate
  rw [hfind]
  simp only [hpe]
  rfl

/-- Claim C5: detaching a connection removes it from the clients map, passes
exactly its controlledAwarenessIds to awareness.removeStates, broadcasts one
AWARENESS frame reporting exactly those ids as removed to exactly the
remaining connections, and invokes the on-empty destroy callback precisely
when the clients map became empty. The owned ids are assumed non-empty and
currently present in the awareness state, the normal situation for a
connection that added its awareness state earlier. -/
theorem claim5_detach_cleanup (n : RealtimeNote) (conn : WebsocketConnection)
    (hfind : n.clients.find? (fun k => decide (k.socket = conn.socket))
      = some conn)
    (hsub : ∀ x ∈ conn.controlledAwarenessIds, x ∈ n.awarenessStates)
    (hne : conn.controlledAwarenessIds ≠ []) :
    (n.detach conn.socket).removeStatesArg = conn.controlledAwarenessIds ∧
    conn.socket ∉ (n.detach conn.socket).note.sockets ∧
    (n.detach conn.socket).sends.map Prod.fst
      = n.sockets.filter (fun s => decide (s ≠ conn.socket)) ∧
    (∀ p ∈ (n.detach conn.socket).sends,
      p.2.tag = MessageTypeAWARENESS ∧
      (∀ x : Nat, x ∈ p.2.payload ↔ x ∈ conn.controlledAwarenessIds)) ∧
    ((n.detach conn.socket).onEmptyInvoked
      ↔ (n.detach conn.socket).note.clients = []) := by
  have hx0 : ∃ x, x ∈ conn.controlledAwarenessIds := by
    cases hcc : conn.controlledAwarenessIds with
    | nil => exact absurd hcc hne
    | cons a t => exact ⟨a, by simp [hcc]⟩
  rcases hx0 with ⟨x0, hx0⟩
  have hx0s : x0 ∈ n.awarenessStates := hsub x0 hx0
  have hpm : x0 ∈ n.awarenessStates.filter
      (fun x => decide (x ∈ conn.controlledAwarenessIds)) := by
    simp [List.mem_filter, hx0s, hx0]
  have hpe : (n.awarenessStates.filter
      (fun x => decide (x ∈ conn.controlledAwarenessIds))).isEmpty = false := by
    cases hq : n.awarenessStates.filter
        (fun x => decide (x ∈ conn.controlledAwarenessIds)) with
    | nil =>
      rw [hq] at hpm
      cases hpm
    | cons a t => rfl
  have hdet := detach_eq n conn hfind hpe
  have hnote : (n.detach conn.socket).note
      = ⟨n.noteId,
         n.clients.filter (fun k => decide (k.socket ≠ conn.socket)),
         n.awarenessStates.filter
           (fun x => decide (x ∉ conn.controlledAwarenessIds))⟩ := by
    rw [hdet]
    split <;> rfl
  have hsends : (n.detach conn.socket).sends
      = (n.clients.filter (fun k => decide (k.socket ≠ conn.socket))).map
          (fun k => (k.socket, awarenessFrame (n.awarenessStates.filter
            (fun x => decide (x ∈ conn.controlledAwarenessIds))))) := by
    rw [hdet]
    split <;> rfl
  refine ⟨?_, ?_, ?_, ?_, ?_⟩
  · rw [hdet]
    split <;> rfl
  · rw [hnote]
    unfold RealtimeNote.sockets
    intro hmem
    rw [map_socket_filter] at hmem
    rcases List.mem_filter.mp hmem with ⟨_, hsock⟩
    simp at hsock
  · rw [hsends, List.map_map]
    have h2 : (Prod.fst ∘ fun k : WebsocketConnection => (k.socket,
        awarenessFrame (n.awarenessStates.filter
          (fun x => decide (x ∈ conn.controlledAwarenessIds)))))
        = WebsocketConnection.socket := rfl
    rw [h2]
    exact map_socket_filter n.clients conn.socket
  · intro p hp
    rw [hsends] at hp
    rcases List.mem_map.mp hp with ⟨k, _, rfl⟩
    refine ⟨rfl, ?_⟩
    intro x
    show x ∈ n.awarenessStates.filter
      (fun y => decide (y ∈ conn.controlledAwarenessIds)) ↔ _
    rw [List.mem_filter]
    constructor
    · intro hmf
      have := hmf.2
      simpa using this
    · intro hxc
      exact ⟨hsub x hxc, by simpa using hxc⟩
  · rw [hdet]
    split
    · rename_i h
      simp only [List.isEmpty_iff] at h
      constructor
      · intro _
        exact h
      · intro _
        rfl
    · rename_i h
      simp only [List.isEmpty_iff] at h
      constructor
      · intro hfalse
        exact Bool.noConfusion hfalse
      · intro he
        exact absurd he h

/-- Claim C5 witness: socket 1 owning awareness id 9 detaches from a session
with sockets 1 and 2; removeStates receives exactly the list holding 9 and
the on-empty callback is not invoked because socket 2 remains. -/
theorem claim5_detach_cleanup_witness :
    (RealtimeNote.mk 7 [⟨1, [9]⟩, ⟨2, []⟩] [9]).clients.find?
        (fun k => decide (k.socket = (1 : ClientId))) = some ⟨1, [9]⟩ ∧
    (∀ x ∈ ([9] : List Nat),
      x ∈ (RealtimeNote.mk 7 [⟨1, [9]⟩, ⟨2, []⟩] [9]).awarenessStates) ∧
    ([9] : List Nat) ≠ [] ∧
    ((RealtimeNote.mk 7 [⟨1, [9]⟩, ⟨2, []⟩] [9]).detach 1).removeStatesArg
      = [9] :=
  ⟨by decide, by decide, by decide,
    (claim5_detach_cleanup (RealtimeNote.mk 7 [⟨1, [9]⟩, ⟨2, []⟩] [9])
      ⟨1, [9]⟩ (by decide) (by decide) (by decide)).1⟩

/-- Claim C1, failing run: two clients connect concurrently to the fresh
note 7; both pass the registry lookup before either content fetch resolves.
The code then invokes getNoteContent twice and builds two distinct
RealtimeNote objects: client 1 is attached to session 0, client 2 to
session 1, and the second map insertion overwrote the first, refuting the
claimed one-fetch one-session guarantee of getOrCreateRealtimeNote. -/
theorem claim1_concurrent_create_race :
    (runGateway [.connectEvt 1 7 true, .connectEvt 2 7 true,
      .resumeEvt 1 true, .resumeEvt 2 true]).fetchLog = [7, 7] ∧
    mapGet (runGateway [.connectEvt 1 7 true, .connectEvt 2 7 true,
      .resumeEvt 1 true, .resumeEvt 2 true]).connectionToRealtimeNote 1
      = some 0 ∧
    mapGet (runGateway [.connectEvt 1 7 true, .connectEvt 2 7 true,
      .resumeEvt 1 true, .resumeEvt 2 true]).connectionToRealtimeNote 2
      = some 1 ∧
    mapGet (runGateway [.connectEvt 1 7 true, .connectEvt 2 7 true,
      .resumeEvt 1 true, .resumeEvt 2 true]).sessions 0
      = some ⟨7, [1], 0⟩ ∧
    mapGet (runGateway [.connectEvt 1 7 true, .connectEvt 2 7 true,
      .resumeEvt 1 true, .resumeEvt 2 true]).sessions 1
      = some ⟨7, [2], 0⟩ ∧
    mapGet (runGateway [.connectEvt 1 7 true, .connectEvt 2 7 true,
      .resumeEvt 1 true, .resumeEvt 2 true]).noteIdToRealtimeNote 7
      = some 1 := by
  decide

/-- Claim C2, failing run: client 1 connects to the fresh note 7, its socket
closes while getNoteContent is suspended (so handleDisconnect finds no
registry entry and does nothing), then the fetch resolves. The run ends
quiescent (no creation pending) with note 7 registered to session 0 whose
clients map is empty and whose document was never destroyed, refuting the
claimed registered-iff-nonempty invariant. -/
theorem claim2_empty_session_leak :
    mapGet (runGateway [.connectEvt 1 7 true, .disconnectEvt 1,
      .resumeEvt 1 false]).noteIdToRealtimeNote 7 = some 0 ∧
    mapGet (runGateway [.connectEvt 1 7 true, .disconnectEvt 1,
      .resumeEvt 1 false]).sessions 0 = some ⟨7, [], 0⟩ ∧
    (runGateway [.connectEvt 1 7 true, .disconnectEvt 1,
      .resumeEvt 1 false]).pendingFetch = [] := by
  decide

/-- Claim C7, failing run: clients 1 and 2 are attached to the session of
note 7; client 1 disconnects. The session survives with client 2 and client
1 is gone from its clients map, yet connectionToRealtimeNote still maps
client 1 to session 0, because handleDisconnect deletes that entry only
inside the onDestroy callback that runs when the session empties. -/
theorem claim7_stale_connection_index :
    mapGet (runGateway [.connectEvt 1 7 true, .resumeEvt 1 true,
      .connectEvt 2 7 true, .disconnectEvt 1]).connectionToRealtimeNote 1
      = some 0 ∧
    mapGet (runGateway [.connectEvt 1 7 true, .resumeEvt 1 true,
      .connectEvt 2 7 true, .disconnectEvt 1]).sessions 0
      = some ⟨7, [2], 0⟩ := by
  decide

/-- Claim C8 counterexample: the gateway registers handlers for the message
types 0, 1 and 2; a frame with the unknown type tag 3 only provokes the
missing-handler error log, and the dispatcher performs no close action, so
the unknown type is not connection-fatal as claimed. -/
theorem claim8_unknown_type_counterexample :
    bindMessageHandlersStep
      [⟨0, HandlerBehavior.ok⟩, ⟨1, HandlerBehavior.ok⟩,
       ⟨2, HandlerBehavior.ok⟩] [3]
      = some [DispatchAction.logMissingHandler] ∧
    DispatchAction.closeConnection ∉ [DispatchAction.logMissingHandler] := by
  decide

/-- Claim C8 amended: an inbound frame whose message type matches no
registered handler makes the dispatcher log the missing handler as an error
and ignore the frame; the connection is left open (no close action is
performed). -/
theorem claim8_unknown_type_ignored (handlers : List MessageHandlerEntry)
    (data : List Nat) (t : Nat) (rest : List Nat)
    (hdec : readVarUint data = some (t, rest))
    (hmiss : handlers.find? (fun h => decide (h.message = t)) = none) :
    bindMessageHandlersStep handlers data
      = some [DispatchAction.logMissingHandler] ∧
    DispatchAction.closeConnection ∉ [DispatchAction.logMissingHandler] := by
  constructor
  · simp only [bindMessageHandlersStep, hdec, Option.map_some']
    simp only [hmiss]
  · decide

/-- Claim C8 witness: the three gateway handlers and the frame holding the
single byte 3. -/
theorem claim8_unknown_type_ignored_witness :
    readVarUint [3] = some (3, []) ∧
    ([⟨0, HandlerBehavior.ok⟩, ⟨1, HandlerBehavior.ok⟩,
      ⟨2, HandlerBehavior.ok⟩] : List MessageHandlerEntry).find?
        (fun h => decide (h.message = 3)) = none ∧
    bindMessageHandlersStep
      [⟨0, HandlerBehavior.ok⟩, ⟨1, HandlerBehavior.ok⟩,
       ⟨2, HandlerBehavior.ok⟩] [3]
      = some [DispatchAction.logMissingHandler] :=
  ⟨by decide, by decide,
    (claim8_unknown_type_ignored
      [⟨0, HandlerBehavior.ok⟩, ⟨1, HandlerBehavior.ok⟩,
       ⟨2, HandlerBehavior.ok⟩] [3] 3 [] (by decide) (by decide)).1⟩

/-- Claim C9 counterexample: a registered handler for type 0 throws; the
dispatcher catches and logs the error with its stack, but performs no close
action at all, so it does not close the offending connection as claimed. -/
theorem claim9_handler_error_counterexample :
    bindMessageHandlersStep [⟨0, HandlerBehavior.throws⟩] [0]
      = some [DispatchAction.logHandlerErrorWithStack] ∧
    DispatchAction.closeConnection
      ∉ [DispatchAction.logHandlerErrorWithStack] := by
  decide

/-- Claim C9 amended: when the invoked message handler throws, the exception
does not escape the dispatcher: the listener completes (the dispatch result
is not the escaping-exception case), its only action is logging the error
with its stack, and no connection is closed, so the session and the other
connections survive untouched. -/
theorem claim9_handler_error_caught (handlers : List MessageHandlerEntry)
    (data : List Nat) (t : Nat) (rest : List Nat) (h : MessageHandlerEntry)
    (hdec : readVarUint data = some (t, rest))
    (hfind : handlers.find? (fun e => decide (e.message = t)) = some h)
    (hth : h.callback = HandlerBehavior.throws) :
    bindMessageHandlersStep handlers data
      = some [DispatchAction.logHandlerErrorWithStack] ∧
    (bindMessageHandlersStep handlers data).isSome = true ∧
    DispatchAction.closeConnection
      ∉ [DispatchAction.logHandlerErrorWithStack] := by
  have hmain : bindMessageHandlersStep handlers data
      = some [DispatchAction.logHandlerErrorWithStack] := by
    simp only [bindMessageHandlersStep, hdec, Option.map_some']
    simp only [hfind, hth]
  refine ⟨hmain, ?_, by decide⟩
  rw [hmain]
  rfl

/-- Claim C9 witness: the single throwing handler for type 0 and the frame
holding the single byte 0. -/
theorem claim9_handler_error_caught_witness :
    readVarUint [0] = some (0, []) ∧
    ([⟨0, HandlerBehavior.throws⟩] : List MessageHandlerEntry).find?
      (fun e => decide (e.message = 0)) = some ⟨0, HandlerBehavior.throws⟩ ∧
    bindMessageHandlersStep [⟨0, HandlerBehavior.throws⟩] [0]
      = some [DispatchAction.logHandlerErrorWithStack] :=
  ⟨by decide, by decide,
    (claim9_handler_error_caught [⟨0, HandlerBehavior.throws⟩] [0] 0 []
      ⟨0, HandlerBehavior.throws⟩ (by decide) (by decide) (by decide)).1⟩

end HedgedocRealtime
